import Mathlib

/-!
Verification of the ndhook webhook orchestrator (src/main.rs) against its
natural-language specification.

The Rust program is shallowly embedded: the untyped JSON tree handled by
serde_json becomes the inductive `Json`; the fallible external collaborators
(HTTP GET of PR metadata, JSON parsing of the response, temp-dir creation,
permission setting, container build, profiling upload / wait / fetch) become
oracle parameters or fields of an `Env` record; and the observable outbound
behaviour of `take_action` becomes the list of `Event`s it emits, in program
order.  The body-parsing path of `handle_post` is embedded byte-level:
percent-decoding, UTF-8 decoding (whose failure the Rust code `unwrap`s,
i.e. panics on), the `replace("payload=", "")` preprocessing, and the JSON
parse.
-/

/-- Untyped JSON tree, as handled by serde_json's `Value`. -/
inductive Json where
  | null
  | bool (b : Bool)
  | num (n : Int)
  | str (s : String)
  | arr (elems : List Json)
  | obj (fields : List (String × Json))

/-- serde_json `Value` indexing by a string key: on an object, the value of
the first field with that key, otherwise `null`; on any non-object, `null`. -/
def Json.getField : Json → String → Json
  | Json.obj fields, k =>
    match fields.find? (fun f => f.1 == k) with
    | some f => f.2
    | none => Json.null
  | _, _ => Json.null

/-- The Rust `match v { Value::String(s) => ..., _ => ... }` discrimination. -/
def Json.asStr : Json → Option String
  | Json.str s => some s
  | _ => none

/-- The five fields of the `PullRequestComment` struct extracted from an
inbound notification. -/
structure PullRequestComment where
  url : String
  clone_url : String
  head_sha : String
  comment : String
  commenter : String
deriving DecidableEq, Repr

/-- Outbound effect of the extraction stage (`PullRequestComment::try_from`):
the single secondary GET of the pull-request URL. -/
inductive ExtractEvent where
  | httpGet (url : String)
deriving DecidableEq, Repr

/-- Embedding of `PullRequestComment::try_from`.  `fetch` models
`reqwest::get(pr_url)` followed by `response.text()` (any failure of either is
`none`); `parse` models `serde_json::from_str` on the response body.  The
returned list records the outbound GETs actually issued, in order; the
`Except` value is the function's result, with the source's error strings
(the Rust code appends the formatted cause to the download/parse errors,
which the model omits). -/
def tryFrom (fetch : String → Option String) (parse : String → Option Json)
    (notification : Json) : List ExtractEvent × Except String PullRequestComment :=
  match (((notification.getField "issue").getField "pull_request").getField "url").asStr with
  | none => ([], Except.error "Oops, couldn't find a PR url.")
  | some pr_url =>
    match ((notification.getField "issue").getField "comments_url").asStr with
    | none => ([], Except.error "Oops, couldn't find a comments url.")
    | some comments_url =>
      match ((notification.getField "comment").getField "body").asStr with
      | none => ([], Except.error "Oops, couldn't find the comment body.")
      | some comment =>
        match (((notification.getField "comment").getField "user").getField "login").asStr with
        | none => ([], Except.error "Oops, couldn't find the commenter.")
        | some commenter =>
          match fetch pr_url with
          | none => ([ExtractEvent.httpGet pr_url],
              Except.error "Oops, couldn't download PR information.")
          | some raw =>
            match parse raw with
            | none => ([ExtractEvent.httpGet pr_url],
                Except.error "Oops, couldn't parse PR information.")
            | some parsed =>
              match ((parsed.getField "head").getField "repo").getField "clone_url" |>.asStr with
              | none => ([ExtractEvent.httpGet pr_url],
                  Except.error "Oops, couldn't get the PR head's clone url.")
              | some cu =>
                match ((parsed.getField "head").getField "sha").asStr with
                | none => ([ExtractEvent.httpGet pr_url],
                    Except.error "Oops, couldn't get the PR head's sha.")
                | some hs => ([ExtractEvent.httpGet pr_url],
                    Except.ok ⟨comments_url, cu, hs, comment, commenter⟩)

/-- One scenario outcome of a profiling result (nimbledroidrs profile entry). -/
structure ScenarioOutcome where
  scenario_name : String
  status : String
  time_in_ms : Nat
deriving DecidableEq, Repr

/-- Results of the fallible external operations a single `take_action` run
encounters, in program order: `TempDir::new`, `set_permissions`, the docker
build's exit code, `Profiler.upload` (job URL on success), `wait_for_profile`
(`false` = `Err`, i.e. timeout), and `get_profile_result`. -/
structure Env where
  tempDirOk : Bool
  setPermissionsOk : Bool
  buildExitCode : Int
  uploadResult : Option String
  waitForProfileOk : Bool
  profileResult : Option (List ScenarioOutcome)
deriving DecidableEq, Repr

/-- Observable (attempted) side effects of `take_action`, in program order. -/
inductive Event where
  | createWorkspace
  | setPermissions (mode : Nat)
  | build (cloneUrl headSha : String)
  | upload
  | waitForProfile (timeoutSecs : Nat)
  | fetchProfileResult (url : String)
  | postComment (url : String) (body : String)
deriving DecidableEq, Repr

/-- ASCII lower-casing of a string, character by character: the embedding of
Rust's `str::to_lowercase` on the ASCII identifiers the allow-list holds. -/
def lowerString (s : String) : String :=
  String.mk (s.data.map Char.toLower)

/-- The fixed string `take_action` publishes when `wait_for_profile` fails. -/
def timeoutMessage : String :=
  "Timeout while waiting for ND to complete profiling the application."

/-- The fixed string `take_action` publishes when `get_profile_result` fails. -/
def fetchFailureMessage : String :=
  "Failed to get the results of the profile from ND."

/-- Header pushed for a successful profile table.  The Rust literal is
`"Scenario | Status | Time (ms)\\n"`: a two-character backslash-n escape
sequence, rendered as a newline once the surrounding JSON body is decoded. -/
def tableHeader : String := "Scenario | Status | Time (ms)\\n"

/-- Separator line pushed after the table header. -/
def tableSeparator : String := "---------|--------|----------\\n"

/-- The cells of one table row: `format("{} | {} | {}", name, status, ms)`. -/
def scenarioCells (p : ScenarioOutcome) : String :=
  p.scenario_name ++ " | " ++ p.status ++ " | " ++ toString p.time_in_ms

/-- One pushed table row, terminated by the `\\n` escape sequence. -/
def scenarioRow (p : ScenarioOutcome) : String :=
  scenarioCells p ++ "\\n"

/-- The `for p in profile_result.profiles` push loop. -/
def profileRows : List ScenarioOutcome → String
  | [] => ""
  | p :: ps => scenarioRow p ++ profileRows ps

/-- The posted HTTP body: `format("\x7b\x7b \"body\": \"\x7b\x7d\" \x7d\x7d", comment_string)`. -/
def postedCommentBody (s : String) : String :=
  "\x7b \"body\": \"" ++ s ++ "\" \x7d"

/-- The first four effects of every authorized run: workspace creation,
`set_permissions(0o733)`, the docker build, and the profiling upload. -/
def commonEvents (pr : PullRequestComment) : List Event :=
  [Event.createWorkspace, Event.setPermissions 0o733,
   Event.build pr.clone_url pr.head_sha, Event.upload]

/-- Embedding of `take_action` after extraction: given the (already
lower-cased) allow-list `profilers`, the extracted `PullRequestComment` and
the outcomes `env` of the external operations, the list of side effects the
run performs, in order.  Early `return`s truncate the list; the build's exit
code is only logged, so it does not branch the trace. -/
def take_action (profilers : List String) (pr : PullRequestComment) (env : Env) :
    List Event :=
  if pr.comment = "profile" then
    if profilers.contains (lowerString pr.commenter) then
      if env.tempDirOk then
        if env.setPermissionsOk then
          match env.uploadResult with
          | none => commonEvents pr
          | some profileUrl =>
            if env.waitForProfileOk then
              match env.profileResult with
              | some ps =>
                commonEvents pr ++
                  [Event.waitForProfile 1200, Event.fetchProfileResult profileUrl,
                   Event.postComment pr.url
                     (postedCommentBody (tableHeader ++ tableSeparator ++ profileRows ps))]
              | none =>
                commonEvents pr ++
                  [Event.waitForProfile 1200, Event.fetchProfileResult profileUrl,
                   Event.postComment pr.url (postedCommentBody fetchFailureMessage)]
            else
              commonEvents pr ++
                [Event.waitForProfile 1200,
                 Event.postComment pr.url (postedCommentBody timeoutMessage)]
        else [Event.createWorkspace, Event.setPermissions 0o733]
      else [Event.createWorkspace]
    else []
  else []

/-- Is this event the comment-publishing POST? -/
def isPostComment : Event → Bool
  | Event.postComment _ _ => true
  | _ => false

/-- Is this event the profiling-result fetch (`get_profile_result`)? -/
def isFetchResult : Event → Bool
  | Event.fetchProfileResult _ => true
  | _ => false

/-- Is this event the docker build invocation? -/
def isBuild : Event → Bool
  | Event.build _ _ => true
  | _ => false

/-- Is this event the profiling upload? -/
def isUpload : Event → Bool
  | Event.upload => true
  | _ => false

/-- Events of the pipeline stages after workspace setup: build, upload,
wait, fetch, publish. -/
def isLaterStage : Event → Bool
  | Event.createWorkspace => false
  | Event.setPermissions _ => false
  | _ => true

/-- The HTTP bodies of the comment POSTs in a trace, in order. -/
def postedBodies (tr : List Event) : List String :=
  tr.filterMap (fun e =>
    match e with
    | Event.postComment _ b => some b
    | _ => none)

/-- Fuel-indexed scan of `replaceAll`: at each position, if the (non-empty)
pattern is a prefix, emit the replacement and skip past the match, otherwise
emit the character and advance by one — the semantics of Rust's
`str::replace`, which replaces every non-overlapping occurrence left to
right.  Fuel bounds the number of scan steps; since every step consumes at
least one character, the input length suffices. -/
def replaceAllAux (pat rep : List Char) : Nat → List Char → List Char
  | 0, s => s
  | _, [] => []
  | fuel + 1, c :: rest =>
    if pat.isPrefixOf (c :: rest) then
      rep ++ replaceAllAux pat rep fuel (List.drop pat.length (c :: rest))
    else
      c :: replaceAllAux pat rep fuel rest

/-- Embedding of Rust's `str::replace(pat, rep)` for a non-empty pattern. -/
def replaceAll (pat rep s : String) : String :=
  String.mk (replaceAllAux pat.data rep.data s.data.length s.data)

/-- Value of an ASCII hex digit, as recognised by the percent-decoder. -/
def hexDigitVal (c : Nat) : Option Nat :=
  if 48 ≤ c ∧ c ≤ 57 then some (c - 48)
  else if 65 ≤ c ∧ c ≤ 70 then some (c - 55)
  else if 97 ≤ c ∧ c ≤ 102 then some (c - 87)
  else none

/-- Embedding of the `percent_encoding` crate's `percent_decode` on raw
bytes: a `%` followed by two hex digits becomes the encoded byte; any other
byte (including a `%` not followed by two hex digits) passes through. -/
def percentDecode : List Nat → List Nat
  | [] => []
  | 37 :: a :: b :: rest =>
    match hexDigitVal a, hexDigitVal b with
    | some ha, some hb => (16 * ha + hb) :: percentDecode rest
    | _, _ => 37 :: percentDecode (a :: b :: rest)
  | c :: rest => c :: percentDecode rest

/-- Is this byte a UTF-8 continuation byte (`10xxxxxx`)? -/
def isContByte (b : Nat) : Bool :=
  decide (128 ≤ b) && decide (b < 192)

/-- Allowed first continuation byte of a three-byte UTF-8 sequence led by
`b`, ruling out overlong encodings (`0xE0`) and surrogates (`0xED`). -/
def cont3FirstOk (b b1 : Nat) : Bool :=
  if b = 0xE0 then decide (0xA0 ≤ b1) && decide (b1 ≤ 0xBF)
  else if b = 0xED then decide (0x80 ≤ b1) && decide (b1 ≤ 0x9F)
  else isContByte b1

/-- Allowed first continuation byte of a four-byte UTF-8 sequence led by
`b`, ruling out overlong encodings (`0xF0`) and code points above
`0x10FFFF` (`0xF4`). -/
def cont4FirstOk (b b1 : Nat) : Bool :=
  if b = 0xF0 then decide (0x90 ≤ b1) && decide (b1 ≤ 0xBF)
  else if b = 0xF4 then decide (0x80 ≤ b1) && decide (b1 ≤ 0x8F)
  else isContByte b1

/-- Strict UTF-8 decoding of a byte list, as performed by Rust's
`str::from_utf8` (which `percent_decode(..).decode_utf8()` delegates to):
`none` on any ill-formed sequence (stray continuation byte, truncated
sequence, overlong encoding, surrogate, or code point above `0x10FFFF`). -/
def utf8Decode? : List Nat → Option (List Char)
  | [] => some []
  | b :: rest =>
    if b < 0x80 then
      (utf8Decode? rest).map (fun cs => Char.ofNat b :: cs)
    else if 0xC2 ≤ b ∧ b ≤ 0xDF then
      match rest with
      | b1 :: rest2 =>
        if isContByte b1 then
          (utf8Decode? rest2).map (fun cs =>
            Char.ofNat ((b - 0xC0) * 0x40 + (b1 - 0x80)) :: cs)
        else none
      | [] => none
    else if 0xE0 ≤ b ∧ b ≤ 0xEF then
      match rest with
      | b1 :: b2 :: rest3 =>
        if cont3FirstOk b b1 && isContByte b2 then
          (utf8Decode? rest3).map (fun cs =>
            Char.ofNat ((b - 0xE0) * 0x1000 + (b1 - 0x80) * 0x40 + (b2 - 0x80)) :: cs)
        else none
      | _ => none
    else if 0xF0 ≤ b ∧ b ≤ 0xF4 then
      match rest with
      | b1 :: b2 :: b3 :: rest4 =>
        if cont4FirstOk b b1 && isContByte b2 && isContByte b3 then
          (utf8Decode? rest4).map (fun cs =>
            Char.ofNat ((b - 0xF0) * 0x40000 + (b1 - 0x80) * 0x1000 +
              (b2 - 0x80) * 0x40 + (b3 - 0x80)) :: cs)
        else none
      | _ => none
    else none

/-- The string `parse_body_bytes` hands to `serde_json::from_str`, when the
decoding steps before the JSON parse survive: percent-decode the raw bytes,
decode them as UTF-8, and strip every occurrence of `"payload="` via
`replace("payload=", "")`.  `none` means the UTF-8 decode failed — the point
at which the Rust code calls `.unwrap()`. -/
def decodedBody (bytes : List Nat) : Option String :=
  match utf8Decode? (percentDecode bytes) with
  | none => none
  | some cs => some (replaceAll "payload=" "" (String.mk cs))

/-- Outcome of `parse_body_bytes`: a panic (the `.unwrap()` on a failed
UTF-8 decode), a parsed JSON value, or a `serde_json` parse error. -/
inductive BodyParseOutcome where
  | panicked
  | parsed (v : Json)
  | parseError

/-- Embedding of `parse_body_bytes`, parameterised by the external JSON
parser `fromStr` (`serde_json::from_str`; `none` models a parse error). -/
def parse_body_bytes (fromStr : String → Option Json) (bytes : List Nat) :
    BodyParseOutcome :=
  match decodedBody bytes with
  | none => BodyParseOutcome.panicked
  | some body =>
    match fromStr body with
    | some v => BodyParseOutcome.parsed v
    | none => BodyParseOutcome.parseError

/-- Observable outcome of `handle_post` on a request body: either the
handler panicked (so no response is produced by this path), or it responded
with the fixed body and optionally spawned a `take_action` run on the parsed
notification. -/
inductive HandleResult where
  | panicked
  | responded (body : String) (spawnedRun : Option Json)

/-- Embedding of `handle_post` on a successfully read request body: parse
the bytes; on success spawn `take_action` on the parsed value; on a parse
error only log; either way answer `"Success"`.  A panic inside
`parse_body_bytes` escapes the handler. -/
def handle_post (fromStr : String → Option Json) (bytes : List Nat) :
    HandleResult :=
  match parse_body_bytes fromStr bytes with
  | BodyParseOutcome.panicked => HandleResult.panicked
  | BodyParseOutcome.parsed v => HandleResult.responded "Success" (some v)
  | BodyParseOutcome.parseError => HandleResult.responded "Success" none

/-- The byte encoding of an ASCII string. -/
def asciiBytes (s : String) : List Nat :=
  s.data.map Char.toNat

/-- The table lines the specification describes: the header, the separator,
and one cell row per scenario outcome, in the input order. -/
def specTableLines (ps : List ScenarioOutcome) : List String :=
  "Scenario | Status | Time (ms)" :: "---------|--------|----------" ::
    ps.map scenarioCells

/-- Join a list of lines, terminating each with the two-character `\\n`
escape sequence the program uses as its line break inside the JSON body. -/
def joinLinesEscaped : List String → String
  | [] => ""
  | l :: ls => l ++ "\\n" ++ joinLinesEscaped ls

/-- A sample authorized pull-request comment. -/
def samplePR : PullRequestComment :=
  { url := "https://api.github.com/repos/o/r/issues/1/comments"
    clone_url := "https://github.com/o/r.git"
    head_sha := "abc123"
    comment := "profile"
    commenter := "Alice" }

/-- Environment of a fully successful run with one scenario outcome. -/
def baseEnv : Env :=
  { tempDirOk := true
    setPermissionsOk := true
    buildExitCode := 0
    uploadResult := some "https://nimbledroid.example/job/1"
    waitForProfileOk := true
    profileResult := some [⟨"cold_start", "OK", 412⟩] }

/-- Environment in which the profiling upload fails. -/
def uploadFailEnv : Env := { baseEnv with uploadResult := none }

/-- Environment in which `wait_for_profile` fails (times out). -/
def timeoutEnv : Env := { baseEnv with waitForProfileOk := false }

/-- Environment in which `get_profile_result` fails. -/
def fetchFailEnv : Env := { baseEnv with profileResult := none }

/-- Environment in which the workspace directory cannot be created. -/
def tempDirFailEnv : Env := { baseEnv with tempDirOk := false }

/-- Environment in which setting the workspace permissions fails. -/
def permsFailEnv : Env := { baseEnv with setPermissionsOk := false }

/-- Does this event leave the per-event permission-mode claim intact: every
`setPermissions` event carries mode `0o733`? -/
def onlyMode733 (e : Event) : Bool :=
  match e with
  | Event.setPermissions m => m == 0o733
  | _ => true

theorem profileRows_eq_join (ps : List ScenarioOutcome) :
    profileRows ps = joinLinesEscaped (ps.map scenarioCells) := by
  induction ps with
  | nil => rfl
  | cons p ps ih =>
    simp [profileRows, joinLinesEscaped, scenarioRow, ih, String.append_assoc]

theorem table_render_eq (ps : List ScenarioOutcome) :
    tableHeader ++ tableSeparator ++ profileRows ps =
      joinLinesEscaped (specTableLines ps) := by
  have h1 : tableHeader = "Scenario | Status | Time (ms)" ++ "\\n" := by decide
  have h2 : tableSeparator = "---------|--------|----------" ++ "\\n" := by decide
  simp [specTableLines, joinLinesEscaped, profileRows_eq_join, h1, h2,
    ← String.append_assoc]

/-- C1, counterexample.  On an authorized run in which the upload fails, the
upload was attempted but the trace contains no comment POST at all: the run
ends with no publish attempt, contradicting the claimed fallback publish. -/
theorem upload_failure_no_publish_cex :
    Event.upload ∈ take_action ["alice"] samplePR uploadFailEnv ∧
      (take_action ["alice"] samplePR uploadFailEnv).any isPostComment = false := by
  decide

/-- C1, amended.  If the profiling upload step fails, `take_action` returns
immediately: no comment POST is attempted (there is no fixed upload-failure
fallback report in the program). -/
theorem upload_failure_aborts_without_publish
    (profilers : List String) (pr : PullRequestComment) (env : Env)
    (h : env.uploadResult = none) :
    (take_action profilers pr env).any isPostComment = false := by
  unfold take_action
  simp only [h]
  split
  · split
    · split
      · split
        · simp [commonEvents, isPostComment]
        · rfl
      · rfl
    · rfl
  · rfl

/-- C1, witness for the amended theorem. -/
theorem upload_failure_aborts_without_publish_w :
    (take_action ["alice"] samplePR uploadFailEnv).any isPostComment = false :=
  upload_failure_aborts_without_publish ["alice"] samplePR uploadFailEnv rfl

/-- C4.  The body-parsing path panics rather than completing: a request body
consisting of the single byte `0xFF` percent-decodes to itself, is not valid
UTF-8, and `parse_body_bytes`'s `.unwrap()` of the UTF-8 decode panics, so
`handle_post` produces no response at all (in particular not the fixed
success body), whichever JSON parser is plugged in. -/
theorem invalid_utf8_body_panics (fromStr : String → Option Json) :
    handle_post fromStr [255] = HandleResult.panicked := rfl

/-- C10.  `parse_body_bytes` strips every occurrence of `"payload="`, not
only a leading one: in the valid JSON body `{"a": "payload=x"}` the
substring occurs only inside a string literal (not as a body prefix), yet
the text handed to the JSON parser is `{"a": "x"}`, a different document;
prefixing the same body with `payload=` removes both occurrences. -/
theorem payload_replace_not_only_leading :
    ("payload=".data.isPrefixOf "\x7b\"a\": \"payload=x\"\x7d".data = false) ∧
      decodedBody (asciiBytes "\x7b\"a\": \"payload=x\"\x7d") =
        some "\x7b\"a\": \"x\"\x7d" ∧
      "\x7b\"a\": \"x\"\x7d" ≠ "\x7b\"a\": \"payload=x\"\x7d" ∧
      decodedBody (asciiBytes ("payload=" ++ "\x7b\"a\": \"payload=x\"\x7d")) =
        some "\x7b\"a\": \"x\"\x7d" := by
  decide

/-- C7.  A trigger whose command text is not exactly `"profile"` or whose
commenter, lower-cased, is not in the allow-list produces an empty effect
trace: no build, no upload, no wait, no fetch, and no comment POST. -/
theorem unauthorized_trigger_no_effects
    (profilers : List String) (pr : PullRequestComment) (env : Env)
    (h : pr.comment ≠ "profile" ∨
      profilers.contains (lowerString pr.commenter) = false) :
    take_action profilers pr env = [] := by
  rcases h with h | h
  · simp [take_action, h]
  · simp at h
    simp [take_action, h]

/-- C2, counterexample.  On an authorized run in which the upload succeeds
and the wait fails, the single published body wraps `timeoutMessage`, which
is not the literal string the claim names. -/
theorem timeout_report_literal_cex :
    postedBodies (take_action ["alice"] samplePR timeoutEnv) =
        [postedCommentBody timeoutMessage] ∧
      timeoutMessage ≠ "Timeout while waiting for profiling to complete." := by
  decide

/-- C2, amended.  If upload succeeds but `wait_for_profile` fails,
`get_profile_result` is never called and the one published body wraps the
literal string `"Timeout while waiting for ND to complete profiling the
application."`. -/
theorem timeout_skips_fetch_publishes_nd_message
    (profilers : List String) (pr : PullRequestComment) (env : Env) (u : String)
    (hcmd : pr.comment = "profile")
    (hwho : profilers.contains (lowerString pr.commenter) = true)
    (htd : env.tempDirOk = true)
    (hsp : env.setPermissionsOk = true)
    (hup : env.uploadResult = some u)
    (hw : env.waitForProfileOk = false) :
    (take_action profilers pr env).any isFetchResult = false ∧
      postedBodies (take_action profilers pr env) =
        [postedCommentBody timeoutMessage] := by
  have hin : lowerString pr.commenter ∈ profilers := by simpa using hwho
  simp [take_action, hcmd, hin, htd, hsp, hup, hw, commonEvents, postedBodies,
    isFetchResult]

/-- C2, witness for the amended theorem. -/
theorem timeout_skips_fetch_publishes_nd_message_w :
    (take_action ["alice"] samplePR timeoutEnv).any isFetchResult = false ∧
      postedBodies (take_action ["alice"] samplePR timeoutEnv) =
        [postedCommentBody timeoutMessage] :=
  timeout_skips_fetch_publishes_nd_message ["alice"] samplePR timeoutEnv
    "https://nimbledroid.example/job/1" rfl (by decide) rfl rfl rfl rfl

/-- C3, counterexample.  On an authorized run in which upload and wait
succeed but fetching the result fails, the single published body wraps
`fetchFailureMessage`, which is not the literal string the claim names. -/
theorem fetch_failure_report_literal_cex :
    postedBodies (take_action ["alice"] samplePR fetchFailEnv) =
        [postedCommentBody fetchFailureMessage] ∧
      fetchFailureMessage ≠ "Failed to retrieve profiling results." := by
  decide

/-- C3, amended.  If upload and wait succeed but `get_profile_result`
returns nothing, the one published body wraps the literal string
`"Failed to get the results of the profile from ND."`. -/
theorem fetch_failure_publishes_nd_message
    (profilers : List String) (pr : PullRequestComment) (env : Env) (u : String)
    (hcmd : pr.comment = "profile")
    (hwho : profilers.contains (lowerString pr.commenter) = true)
    (htd : env.tempDirOk = true)
    (hsp : env.setPermissionsOk = true)
    (hup : env.uploadResult = some u)
    (hw : env.waitForProfileOk = true)
    (hres : env.profileResult = none) :
    postedBodies (take_action profilers pr env) =
      [postedCommentBody fetchFailureMessage] := by
  have hin : lowerString pr.commenter ∈ profilers := by simpa using hwho
  simp [take_action, hcmd, hin, htd, hsp, hup, hw, hres, commonEvents,
    postedBodies]

/-- C3, witness for the amended theorem. -/
theorem fetch_failure_publishes_nd_message_w :
    postedBodies (take_action ["alice"] samplePR fetchFailEnv) =
      [postedCommentBody fetchFailureMessage] :=
  fetch_failure_publishes_nd_message ["alice"] samplePR fetchFailEnv
    "https://nimbledroid.example/job/1" rfl (by decide) rfl rfl rfl rfl rfl

/-- C5, counterexample.  A successful authorized run sets the workspace
permissions to mode `0o733`, whose others bits are `3` (write+execute), not
`0`, and whose group bits are `3`, not `7`: others are not excluded and
group is not granted read. -/
theorem workspace_permissions_cex :
    Event.setPermissions 0o733 ∈ take_action ["alice"] samplePR baseEnv ∧
      ¬(0o733 % 8 = 0) ∧ ¬(0o733 / 8 % 8 = 7) := by
  decide

/-- C5, amended.  Every permission-setting event of every run carries mode
`0o733`: owner read-write-execute, group write-execute (no read), others
write-execute (not excluded). -/
theorem workspace_permissions_mode_733
    (profilers : List String) (pr : PullRequestComment) (env : Env) :
    (take_action profilers pr env).all onlyMode733 = true ∧
      0o733 / 64 % 8 = 7 ∧ 0o733 / 8 % 8 = 3 ∧ 0o733 % 8 = 3 := by
  refine ⟨?_, by decide, by decide, by decide⟩
  unfold take_action
  repeat' split
  all_goals simp [commonEvents, onlyMode733]

/-- C6, counterexample.  When workspace creation fails on an authorized run
whose remaining environment would succeed, the trace stops at the creation
attempt: no build, profiling, or publish stage runs, contradicting the
claimed non-fatality. -/
theorem workspace_error_fatal_cex :
    take_action ["alice"] samplePR tempDirFailEnv = [Event.createWorkspace] ∧
      (take_action ["alice"] samplePR tempDirFailEnv).any isLaterStage = false := by
  decide

/-- C6, amended.  A workspace error (failed directory creation or failed
permission setting) is fatal: `take_action` returns immediately and no
build, upload, wait, fetch, or comment POST occurs. -/
theorem workspace_error_aborts_run
    (profilers : List String) (pr : PullRequestComment) (env : Env)
    (h : env.tempDirOk = false ∨ env.setPermissionsOk = false) :
    (take_action profilers pr env).any isLaterStage = false := by
  unfold take_action
  rcases h with h | h
  · rw [h]
    split
    · split
      · simp [isLaterStage]
      · rfl
    · rfl
  · rw [h]
    split
    · split
      · split
        · simp [isLaterStage]
        · simp [isLaterStage]
      · rfl
    · rfl

/-- C6, witness for the amended theorem. -/
theorem workspace_error_aborts_run_w :
    (take_action ["alice"] samplePR permsFailEnv).any isLaterStage = false :=
  workspace_error_aborts_run ["alice"] samplePR permsFailEnv (Or.inr rfl)

/-- C8.  If any of the four first-stage fields (`issue.pull_request.url`,
`issue.comments_url`, `comment.body`, `comment.user.login`) is missing or
not a string, `tryFrom` returns an error and issues no outbound GET. -/
theorem malformed_event_no_network_call
    (fetch : String → Option String) (parse : String → Option Json) (n : Json)
    (h : (((n.getField "issue").getField "pull_request").getField "url").asStr = none ∨
      ((n.getField "issue").getField "comments_url").asStr = none ∨
      ((n.getField "comment").getField "body").asStr = none ∨
      (((n.getField "comment").getField "user").getField "login").asStr = none) :
    (tryFrom fetch parse n).1 = [] ∧
      ∃ e, (tryFrom fetch parse n).2 = Except.error e := by
  unfold tryFrom
  rcases h with h | h | h | h
  · rw [h]
    exact ⟨rfl, _, rfl⟩
  · cases h1 : (((n.getField "issue").getField "pull_request").getField "url").asStr with
    | none => exact ⟨rfl, _, rfl⟩
    | some s1 => rw [h]; exact ⟨rfl, _, rfl⟩
  · cases h1 : (((n.getField "issue").getField "pull_request").getField "url").asStr with
    | none => exact ⟨rfl, _, rfl⟩
    | some s1 =>
      cases h2 : ((n.getField "issue").getField "comments_url").asStr with
      | none => exact ⟨rfl, _, rfl⟩
      | some s2 => rw [h]; exact ⟨rfl, _, rfl⟩
  · cases h1 : (((n.getField "issue").getField "pull_request").getField "url").asStr with
    | none => exact ⟨rfl, _, rfl⟩
    | some s1 =>
      cases h2 : ((n.getField "issue").getField "comments_url").asStr with
      | none => exact ⟨rfl, _, rfl⟩
      | some s2 =>
        cases h3 : ((n.getField "comment").getField "body").asStr with
        | none => exact ⟨rfl, _, rfl⟩
        | some s3 => rw [h]; exact ⟨rfl, _, rfl⟩

/-- C8, witness: the all-null notification has none of the four fields, so
extraction fails with no GET. -/
theorem malformed_event_no_network_call_w :
    (tryFrom (fun _ => none) (fun _ => none) Json.null).1 = [] ∧
      ∃ e, (tryFrom (fun _ => none) (fun _ => none) Json.null).2 =
        Except.error e :=
  malformed_event_no_network_call (fun _ => none) (fun _ => none) Json.null
    (Or.inl rfl)

/-- C9.  When upload, wait and fetch all succeed with scenario outcomes
`ps`, the one published body wraps exactly the table whose lines are the
header `Scenario | Status | Time (ms)`, the separator, and one cell row per
outcome of `ps` in input order — `ps.length + 2` lines in all. -/
theorem successful_profile_publishes_ordered_table
    (profilers : List String) (pr : PullRequestComment) (env : Env)
    (u : String) (ps : List ScenarioOutcome)
    (hcmd : pr.comment = "profile")
    (hwho : profilers.contains (lowerString pr.commenter) = true)
    (htd : env.tempDirOk = true)
    (hsp : env.setPermissionsOk = true)
    (hup : env.uploadResult = some u)
    (hw : env.waitForProfileOk = true)
    (hres : env.profileResult = some ps) :
    postedBodies (take_action profilers pr env) =
        [postedCommentBody (joinLinesEscaped (specTableLines ps))] ∧
      (specTableLines ps).length = ps.length + 2 := by
  constructor
  · have hin : lowerString pr.commenter ∈ profilers := by simpa using hwho
    simp [take_action, hcmd, hin, htd, hsp, hup, hw, hres, commonEvents,
      postedBodies, table_render_eq]
  · simp [specTableLines]

/-- C9, witness: the successful sample run publishes the two-line header
plus the single row `cold_start | OK | 412`. -/
theorem successful_profile_publishes_ordered_table_w :
    postedBodies (take_action ["alice"] samplePR baseEnv) =
        [postedCommentBody (joinLinesEscaped
          (specTableLines [⟨"cold_start", "OK", 412⟩]))] ∧
      (specTableLines [⟨"cold_start", "OK", 412⟩]).length =
        [(⟨"cold_start", "OK", 412⟩ : ScenarioOutcome)].length + 2 :=
  successful_profile_publishes_ordered_table ["alice"] samplePR baseEnv
    "https://nimbledroid.example/job/1" [⟨"cold_start", "OK", 412⟩]
    rfl (by decide) rfl rfl rfl rfl rfl

/-- C7, witness: the command text `"Profile"` differs from `"profile"`
case-sensitively, so the run has no effect even for an allow-listed
commenter and an otherwise fully successful environment. -/
theorem unauthorized_trigger_no_effects_w :
    take_action ["alice"]
      { samplePR with comment := "Profile" } baseEnv = [] :=
  unauthorized_trigger_no_effects ["alice"]
    { samplePR with comment := "Profile" } baseEnv (Or.inl (by decide))
